import Mathlib

/-!
Verification development for the trips endpoint of the NYC TLC analytics
backend (`backend/app/routers/trips.py`, handler `get_trips`).

The handler is embedded shallowly:
* Python runtime values occurring in database rows are `PyVal`
  (floats are modelled as rationals);
* a database row (`pyodbc` row-like mapping) is an association list;
* Python `float(...)` / `int(...)` applied to such values are partial
  functions returning `Option` (`none` models the `ValueError`/`TypeError`
  raised on unconvertible input); string conversion follows Python's
  decimal grammar (sign, digits, optional fractional part; exponents,
  `inf`/`nan` and surrounding whitespace are unused by the development
  and omitted);
* exceptions inside the handler's `try` block are modelled by `Except`:
  any raised exception propagates to the single handler boundary, which
  converts it into the empty fallback response;
* the database access object (`app.database.db`) is an external
  collaborator, modelled as a record of two fallible functions.

SQL text is reproduced from the source with layout whitespace normalised
to single spaces (the claims under verification never depend on layout
whitespace inside the query strings).
-/

/-- A Python runtime value as it can occur in a database row:
`None`, a string, an integer, or a float (modelled as a rational). -/
inductive PyVal where
  | none
  | str (s : String)
  | int (n : Int)
  | float (q : Rat)
deriving DecidableEq

/-- Python truthiness of a `PyVal`: `None`, `""`, `0` and `0.0` are falsy,
everything else is truthy. -/
def PyVal.truthy : PyVal → Bool
  | .none => false
  | .str s => !s.isEmpty
  | .int n => n != 0
  | .float q => q != 0

/-- Numeric value of a list of decimal digit characters. -/
def digitsVal (cs : List Char) : Nat :=
  cs.foldl (fun a c => 10 * a + (c.toNat - 48)) 0

/-- Parse an unsigned decimal float literal: digits, optionally followed
by `.` and further digits, with at least one digit overall. -/
def parseUnsignedFloat (cs : List Char) : Option Rat :=
  let ip := cs.takeWhile Char.isDigit
  let rest := cs.dropWhile Char.isDigit
  match rest with
  | [] => if ip.isEmpty then Option.none else some (digitsVal ip : Rat)
  | '.' :: fp =>
      if fp.all Char.isDigit && !(ip.isEmpty && fp.isEmpty) then
        some ((digitsVal ip : Rat) + (digitsVal fp : Rat) / (10 : Rat) ^ fp.length)
      else Option.none
  | _ => Option.none

/-- Python `float` applied to a string: optional sign, then an unsigned
decimal literal; `Option.none` models the `ValueError` on anything else. -/
def pyFloatOfString (s : String) : Option Rat :=
  match s.toList with
  | '+' :: cs => parseUnsignedFloat cs
  | '-' :: cs => (parseUnsignedFloat cs).map (fun q => -q)
  | cs => parseUnsignedFloat cs

/-- Parse an unsigned decimal integer literal (all digits, nonempty). -/
def parseUnsignedInt (cs : List Char) : Option Int :=
  if !cs.isEmpty && cs.all Char.isDigit then some (digitsVal cs : Int) else Option.none

/-- Python `int` applied to a string: optional sign, then digits;
`Option.none` models the `ValueError` on anything else. -/
def pyIntOfString (s : String) : Option Int :=
  match s.toList with
  | '+' :: cs => parseUnsignedInt cs
  | '-' :: cs => (parseUnsignedInt cs).map (fun n => -n)
  | cs => parseUnsignedInt cs

/-- Truncation of a rational toward zero, as Python `int` on a float. -/
def ratTrunc (q : Rat) : Int := if 0 ≤ q then ⌊q⌋ else ⌈q⌉

/-- Python `float(v)` on a row value; `Option.none` models the
`TypeError`/`ValueError` raised on `None` or an unconvertible string. -/
def pyFloat : PyVal → Option Rat
  | .none => Option.none
  | .str s => pyFloatOfString s
  | .int n => some (n : Rat)
  | .float q => some q

/-- Python `int(v)` on a row value; floats truncate toward zero. -/
def pyInt : PyVal → Option Int
  | .none => Option.none
  | .str s => pyIntOfString s
  | .int n => some n
  | .float q => some (ratTrunc q)

/-- A database row with named-field access, as returned by
`db.execute_query`. -/
abbrev Row := List (String × PyVal)

/-- `row[k]` access: `Option.none` models the `KeyError` on a missing key. -/
def rowFind (r : Row) (k : String) : Option PyVal :=
  (r.find? (fun p => p.1 == k)).map Prod.snd

/-- `row.get(k, d)` access: the default `d` on a missing key. -/
def rowGet (r : Row) (k : String) (d : PyVal) : PyVal :=
  (rowFind r k).getD d

/-- Modelled from the spec: the `ServiceType` enum lives in `app.models`,
which is not among the provided sources; spec §3 lists the categorical
values "yellow", "green", "fhv". -/
inductive ServiceType where
  | yellow
  | green
  | fhv
deriving DecidableEq

/-- Modelled from the spec: `.value` of a `ServiceType` enum member is its
categorical string. -/
def ServiceType.value : ServiceType → String
  | .yellow => "yellow"
  | .green => "green"
  | .fhv => "fhv"

/-- An abstract calendar date (`datetime.date`); its internals are never
inspected by the handler, only passed through as a bound parameter.
Python `date` objects are always truthy. -/
abbrev DateV := Nat

/-- A value bound to a `?` placeholder of a parameterized query. -/
inductive Param where
  | date (d : DateV)
  | str (s : String)
  | int (n : Int)
deriving DecidableEq

/-- The predicate builder of `get_trips` (source lines 42-58): starting
from empty `where_parts` / `params`, append the date-range pair when both
dates are truthy, then one equality predicate and one bound parameter for
each truthy optional filter (`service_type`, then `borough`).  Absent
optional values are `Option.none`; a present but empty `borough` string is
falsy in Python and is likewise skipped. -/
def buildWhere (start_date end_date : Option DateV) (service_type : Option ServiceType)
    (borough : Option String) : List String × List Param :=
  let wp0 : List String := []
  let ps0 : List Param := []
  let s1 :=
    match start_date, end_date with
    | some s, some e =>
        (wp0 ++ ["CAST(pickup_date AS DATE) >= ?", "CAST(pickup_date AS DATE) <= ?"],
         ps0 ++ [Param.date s, Param.date e])
    | _, _ => (wp0, ps0)
  let s2 :=
    match service_type with
    | some st => (s1.1 ++ ["service_type = ?"], s1.2 ++ [Param.str st.value])
    | Option.none => s1
  match borough with
  | some b => if b.isEmpty then s2 else (s2.1 ++ ["pickup_borough = ?"], s2.2 ++ [Param.str b])
  | Option.none => s2

/-- Source line 59: `" AND ".join(where_parts) if where_parts else "1=1"`. -/
def whereClauseOf (wp : List String) : String :=
  if wp.isEmpty then "1=1" else String.intercalate " AND " wp

/-- Source line 62: the count query text. -/
def countQueryOf (where_clause : String) : String :=
  "SELECT COUNT(*) as total FROM fact_trip_sample WHERE " ++ where_clause

/-- Source lines 68-91: the page query text, with `ORDER BY
pickup_datetime DESC` as its only ordering key and server-side
`OFFSET ? ROWS FETCH NEXT ? ROWS ONLY` pagination. -/
def pageQueryOf (where_clause : String) : String :=
  "SELECT trip_id, service_type, pickup_datetime, dropoff_datetime, " ++
  "pickup_location_id, dropoff_location_id, pickup_borough, pickup_zone, " ++
  "dropoff_borough, dropoff_zone, trip_distance, total_amount, " ++
  "trip_duration_sec, pickup_date, is_valid, created_at " ++
  "FROM fact_trip_sample WHERE " ++ where_clause ++
  " ORDER BY pickup_datetime DESC OFFSET ? ROWS FETCH NEXT ? ROWS ONLY"

/-- The `Trip` record as constructed by the handler (source lines 103-115).
Field values are carried as the row values they were built from;
the numeric fields hold the converted float/int results. -/
structure Trip where
  trip_id : PyVal
  service_type : PyVal
  pickup_datetime : PyVal
  dropoff_datetime : PyVal
  pickup_borough : PyVal
  pickup_zone : PyVal
  dropoff_borough : PyVal
  dropoff_zone : PyVal
  trip_distance : Rat
  total_amount : Rat
  trip_duration_sec : Int
deriving DecidableEq

/-- The numeric-field pattern of source lines 112-113:
`float(row.get(k, 0)) if row.get(k) else 0.0`.  When the raw value is
missing or falsy the result is `0.0` without any conversion attempt;
otherwise Python `float` runs and may raise (`Option.none`). -/
def numFieldFloat (row : Row) (k : String) : Option Rat :=
  if (rowGet row k PyVal.none).truthy then pyFloat (rowGet row k (PyVal.int 0))
  else some 0

/-- The numeric-field pattern of source line 114:
`int(row.get(k, 0)) if row.get(k) else 0`. -/
def numFieldInt (row : Row) (k : String) : Option Int :=
  if (rowGet row k PyVal.none).truthy then pyInt (rowGet row k (PyVal.int 0))
  else some 0

/-- One iteration of the row-mapping loop (source lines 102-118): build a
`Trip` from a raw row; `Option.none` models the caught
`KeyError`/`ValueError`/`TypeError` that makes the loop `continue`
without emitting a record.  The four required fields use `row[...]`
access (`KeyError` when missing); the borough/zone fields use `row.get`
(default `None`); the numeric fields use the tolerant pattern above, whose
conversion step can still raise. -/
def tripOfRow (row : Row) : Option Trip := do
  let trip_id ← rowFind row "trip_id"
  let service_type ← rowFind row "service_type"
  let pickup_datetime ← rowFind row "pickup_datetime"
  let dropoff_datetime ← rowFind row "dropoff_datetime"
  let trip_distance ← numFieldFloat row "trip_distance"
  let total_amount ← numFieldFloat row "total_amount"
  let trip_duration_sec ← numFieldInt row "trip_duration_sec"
  pure {
    trip_id := trip_id
    service_type := service_type
    pickup_datetime := pickup_datetime
    dropoff_datetime := dropoff_datetime
    pickup_borough := rowGet row "pickup_borough" PyVal.none
    pickup_zone := rowGet row "pickup_zone" PyVal.none
    dropoff_borough := rowGet row "dropoff_borough" PyVal.none
    dropoff_zone := rowGet row "dropoff_zone" PyVal.none
    trip_distance := trip_distance
    total_amount := total_amount
    trip_duration_sec := trip_duration_sec }

/-- Source line 64: `total_records = count_result if count_result else 0`
(`None` and `0` are falsy). -/
def totalRecordsOf (count_result : Option Int) : Int :=
  match count_result with
  | some n => if n != 0 then n else 0
  | Option.none => 0

/-- Source line 126: `math.ceil(total_records / page_size) if page_size > 0
else 0` (Python `/` is exact-valued true division followed by `math.ceil`). -/
def totalPagesOf (total_records page_size : Int) : Int :=
  if page_size > 0 then ⌈(total_records : Rat) / (page_size : Rat)⌉ else 0

/-- Pagination metadata of the response (`PaginationResponse`). -/
structure PaginationResponse where
  page : Int
  page_size : Int
  total_records : Int
  total_pages : Int
deriving DecidableEq

/-- The response body (`TripsResponse`). -/
structure TripsResponse where
  data : List Trip
  pagination : PaginationResponse
deriving DecidableEq

/-- The database access collaborator (`app.database.db`): a scalar query
runner and a row query runner, either of which may raise. -/
structure Db where
  execute_scalar : String → List Param → Except String (Option Int)
  execute_query : String → List Param → Except String (List Row)

/-- The body of the handler's `try` block (source lines 40-128):
build the predicate, run the count query, run the page query with the
pagination parameters appended, map the rows tolerantly, and assemble the
response.  A `.error` is an exception propagating out of the `try` block. -/
def get_trips_try (db : Db) (start_date end_date : DateV)
    (service_type : Option ServiceType) (borough : Option String)
    (page page_size : Int) : Except String TripsResponse :=
  let bw := buildWhere (some start_date) (some end_date) service_type borough
  let where_clause := whereClauseOf bw.1
  let count_query := countQueryOf where_clause
  match db.execute_scalar count_query bw.2 with
  | .error e => .error e
  | .ok count_result =>
    let total_records := totalRecordsOf count_result
    let offset := (page - 1) * page_size
    let query := pageQueryOf where_clause
    match db.execute_query query (bw.2 ++ [Param.int offset, Param.int page_size]) with
    | .error e => .error e
    | .ok result =>
      .ok { data := result.filterMap tripOfRow
            pagination := {
              page := page
              page_size := page_size
              total_records := total_records
              total_pages := totalPagesOf total_records page_size } }

/-- The whole handler (source lines 40-142): the `except` boundary turns
any exception from the `try` block into the empty fallback response with
echoed `page`/`page_size` and zeroed totals. -/
def get_trips (db : Db) (start_date end_date : DateV)
    (service_type : Option ServiceType) (borough : Option String)
    (page page_size : Int) : TripsResponse :=
  match get_trips_try db start_date end_date service_type borough page page_size with
  | .ok r => r
  | .error _ =>
    { data := []
      pagination := {
        page := page
        page_size := page_size
        total_records := 0
        total_pages := 0 } }

/-! ## Spec-side auxiliary definitions

These definitions restate, for comparison, how the spec describes the
predicate builder's output; the theorems below relate them to
`buildWhere`, which is the embedding of the source. -/

/-- The date-range filter is active exactly when both dates are supplied
(a `datetime.date` is always truthy). -/
def dateActive (sd ed : Option DateV) : Bool := sd.isSome && ed.isSome

/-- The service-type filter is active exactly when supplied (an enum
member is always truthy). -/
def stActive (st : Option ServiceType) : Bool := st.isSome

/-- The borough filter is active exactly when supplied and nonempty
(the empty string is falsy in Python). -/
def boroughActive (b : Option String) : Bool :=
  match b with
  | some s => !s.isEmpty
  | Option.none => false

/-- The WHERE-clause fragments contributed by the date-range filter. -/
def datePartsW (sd ed : Option DateV) : List String :=
  match sd, ed with
  | some _, some _ => ["CAST(pickup_date AS DATE) >= ?", "CAST(pickup_date AS DATE) <= ?"]
  | _, _ => []

/-- The bound parameters contributed by the date-range filter. -/
def datePartsP (sd ed : Option DateV) : List Param :=
  match sd, ed with
  | some s, some e => [Param.date s, Param.date e]
  | _, _ => []

/-- The WHERE-clause fragment contributed by the service-type filter. -/
def stPartsW (st : Option ServiceType) : List String :=
  match st with
  | some _ => ["service_type = ?"]
  | Option.none => []

/-- The bound parameter contributed by the service-type filter. -/
def stPartsP (st : Option ServiceType) : List Param :=
  match st with
  | some v => [Param.str v.value]
  | Option.none => []

/-- The WHERE-clause fragment contributed by the borough filter. -/
def boroughPartsW (b : Option String) : List String :=
  if boroughActive b then ["pickup_borough = ?"] else []

/-- The bound parameter contributed by the borough filter. -/
def boroughPartsP (b : Option String) : List Param :=
  match b with
  | some s => if s.isEmpty then [] else [Param.str s]
  | Option.none => []

/-- Number of `?` placeholders in a piece of SQL text. -/
def countPlaceholders (s : String) : Nat :=
  s.toList.countP (fun c => c == '?')

/-- The `pickup_datetime` sort key of a row, as compared by the page
query's `ORDER BY` (integer-timestamp view; defaults to 0). -/
def tsOf (r : Row) : Int :=
  match rowFind r "pickup_datetime" with
  | some (PyVal.int n) => n
  | _ => 0

/-- Modelled from the spec: the database collaborator (§6) executes the
page query, whose only ordering directive is `ORDER BY pickup_datetime
DESC` (source line 88).  A returned row list is admissible when it is a
permutation of the matching rows in which consecutive timestamps are
non-increasing; the query text imposes no constraint on the relative
order of rows with equal timestamps, since it supplies no tie-break key. -/
def admissibleOrdering (rows result : List Row) : Prop :=
  result.Perm rows ∧ result.Chain' (fun a b => tsOf b ≤ tsOf a)

/-- A database whose two calls return fixed successful results. -/
def constDb (r : Option Int) (rows : List Row) : Db where
  execute_scalar := fun _ _ => .ok r
  execute_query := fun _ _ => .ok rows

/-- A database whose two calls always raise. -/
def errDb : Db where
  execute_scalar := fun _ _ => .error "connection failed"
  execute_query := fun _ _ => .error "connection failed"

/-- A row whose required fields are all present and convertible but whose
`trip_distance` is a truthy, non-numeric string. -/
def rowBadDistance : Row :=
  [("trip_id", PyVal.int 1), ("service_type", PyVal.str "yellow"),
   ("pickup_datetime", PyVal.int 100), ("dropoff_datetime", PyVal.int 200),
   ("trip_distance", PyVal.str "abc"), ("total_amount", PyVal.int 10),
   ("trip_duration_sec", PyVal.int 60)]

/-- The same row with the `trip_distance` column absent. -/
def rowNoDistance : Row :=
  [("trip_id", PyVal.int 1), ("service_type", PyVal.str "yellow"),
   ("pickup_datetime", PyVal.int 100), ("dropoff_datetime", PyVal.int 200),
   ("total_amount", PyVal.int 10), ("trip_duration_sec", PyVal.int 60)]

/-- Two distinct rows sharing one `pickup_datetime` sort key. -/
def rowTieA : Row := [("pickup_datetime", PyVal.int 100), ("service_type", PyVal.str "yellow")]

/-- See `rowTieA`. -/
def rowTieB : Row := [("pickup_datetime", PyVal.int 100), ("service_type", PyVal.str "green")]

/-- Two rows with distinct `pickup_datetime` sort keys, newest first. -/
def rowSeqA : Row := [("pickup_datetime", PyVal.int 200), ("service_type", PyVal.str "yellow")]

/-- See `rowSeqA`. -/
def rowSeqB : Row := [("pickup_datetime", PyVal.int 100), ("service_type", PyVal.str "green")]

/-! ## Helper lemmas -/

/-- `buildWhere` decomposes filter-by-filter: each filter contributes its
fixed clause fragments and its bound parameters, in the same relative
order. -/
theorem buildWhere_decomp (sd ed : Option DateV) (st : Option ServiceType)
    (b : Option String) :
    buildWhere sd ed st b =
      (datePartsW sd ed ++ stPartsW st ++ boroughPartsW b,
       datePartsP sd ed ++ stPartsP st ++ boroughPartsP b) := by
  cases sd <;> cases ed <;> cases st <;> cases b <;>
    simp only [buildWhere, datePartsW, datePartsP, stPartsW, stPartsP,
      boroughPartsW, boroughPartsP, boroughActive, List.nil_append, List.append_nil] <;>
    first
      | rfl
      | (rename_i s; by_cases hs : s.isEmpty <;> simp [hs])

/-- The ceiling of `a / b` over ℚ is the rounded-up integer division. -/
theorem ceil_natCast_div (a b : Nat) (hb : 0 < b) :
    ⌈(a : Rat) / (b : Rat)⌉ = (((a + b - 1) / b : Nat) : Int) := by
  have hbq : (0 : Rat) < (b : Rat) := by exact_mod_cast hb
  rw [Int.ceil_eq_iff]
  have hdm := Nat.div_add_mod (a + b - 1) b
  have hr : (a + b - 1) % b < b := Nat.mod_lt _ hb
  constructor
  · rw [lt_div_iff₀ hbq]
    have h2 : b * ((a + b - 1) / b) < a + b := by omega
    have h2q : (b : Rat) * (((a + b - 1) / b : Nat) : Rat) < (a : Rat) + (b : Rat) := by
      exact_mod_cast h2
    rw [Int.cast_natCast]
    nlinarith [h2q]
  · rw [div_le_iff₀ hbq]
    have h1 : a ≤ b * ((a + b - 1) / b) := by omega
    have h1q : (a : Rat) ≤ (b : Rat) * (((a + b - 1) / b : Nat) : Rat) := by
      exact_mod_cast h1
    rw [Int.cast_natCast]
    linarith

/-- The success path of the handler against a database returning fixed
results: the mapped rows and the pagination metadata computed from the
scalar count. -/
theorem get_trips_try_constDb (r : Option Int) (rows : List Row)
    (sd ed : DateV) (st : Option ServiceType) (b : Option String)
    (pg psz : Int) :
    get_trips_try (constDb r rows) sd ed st b pg psz =
      .ok { data := rows.filterMap tripOfRow
            pagination := {
              page := pg
              page_size := psz
              total_records := totalRecordsOf r
              total_pages := totalPagesOf (totalRecordsOf r) psz } } := rfl

/-- `get_trips` on the same fixed database. -/
theorem get_trips_constDb (r : Option Int) (rows : List Row)
    (sd ed : DateV) (st : Option ServiceType) (b : Option String)
    (pg psz : Int) :
    get_trips (constDb r rows) sd ed st b pg psz =
      { data := rows.filterMap tripOfRow
        pagination := {
          page := pg
          page_size := psz
          total_records := totalRecordsOf r
          total_pages := totalPagesOf (totalRecordsOf r) psz } } := rfl

/-- A falsy raw value short-circuits the numeric-field pattern to zero. -/
theorem numFieldFloat_of_falsy (row : Row) (k : String)
    (h : (rowGet row k PyVal.none).truthy = false) :
    numFieldFloat row k = some 0 := by
  simp [numFieldFloat, h]

/-- A falsy raw value short-circuits the integer-field pattern to zero. -/
theorem numFieldInt_of_falsy (row : Row) (k : String)
    (h : (rowGet row k PyVal.none).truthy = false) :
    numFieldInt row k = some 0 := by
  simp [numFieldInt, h]

/-- The numeric-field pattern raises exactly when the raw value is truthy
and its `float` conversion raises. -/
theorem numFieldFloat_eq_none_iff (row : Row) (k : String) :
    numFieldFloat row k = Option.none ↔
      ((rowGet row k PyVal.none).truthy = true ∧
       pyFloat (rowGet row k (PyVal.int 0)) = Option.none) := by
  unfold numFieldFloat
  by_cases h : (rowGet row k PyVal.none).truthy <;> simp [h]

/-- The integer-field pattern raises exactly when the raw value is truthy
and its `int` conversion raises. -/
theorem numFieldInt_eq_none_iff (row : Row) (k : String) :
    numFieldInt row k = Option.none ↔
      ((rowGet row k PyVal.none).truthy = true ∧
       pyInt (rowGet row k (PyVal.int 0)) = Option.none) := by
  unfold numFieldInt
  by_cases h : (rowGet row k PyVal.none).truthy <;> simp [h]

/-- Unfolding of a successful `tripOfRow`: every lookup and conversion
succeeded, and the record's fields are the looked-up/converted values. -/
theorem tripOfRow_eq_some_iff (row : Row) (t : Trip) :
    tripOfRow row = some t ↔
      rowFind row "trip_id" = some t.trip_id ∧
      rowFind row "service_type" = some t.service_type ∧
      rowFind row "pickup_datetime" = some t.pickup_datetime ∧
      rowFind row "dropoff_datetime" = some t.dropoff_datetime ∧
      numFieldFloat row "trip_distance" = some t.trip_distance ∧
      numFieldFloat row "total_amount" = some t.total_amount ∧
      numFieldInt row "trip_duration_sec" = some t.trip_duration_sec ∧
      t.pickup_borough = rowGet row "pickup_borough" PyVal.none ∧
      t.pickup_zone = rowGet row "pickup_zone" PyVal.none ∧
      t.dropoff_borough = rowGet row "dropoff_borough" PyVal.none ∧
      t.dropoff_zone = rowGet row "dropoff_zone" PyVal.none := by
  constructor
  · intro h
    simp only [tripOfRow, bind, Option.bind_eq_some, Option.pure_def,
      Option.some.injEq] at h
    obtain ⟨a1, h1, a2, h2, a3, h3, a4, h4, d, hd, ta, hta, du, hdu, ht⟩ := h
    subst ht
    exact ⟨h1, h2, h3, h4, hd, hta, hdu, rfl, rfl, rfl, rfl⟩
  · intro ⟨h1, h2, h3, h4, hd, hta, hdu, hb1, hb2, hb3, hb4⟩
    simp only [tripOfRow, bind, Option.bind_eq_some, Option.pure_def,
      Option.some.injEq]
    refine ⟨_, h1, _, h2, _, h3, _, h4, _, hd, _, hta, _, hdu, ?_⟩
    cases t
    simp_all

/-- A failing numeric conversion anywhere in the row makes `tripOfRow`
skip the row, whatever the other fields hold. -/
theorem tripOfRow_eq_none_of_numField (row : Row)
    (h : numFieldFloat row "trip_distance" = Option.none ∨
         numFieldFloat row "total_amount" = Option.none ∨
         numFieldInt row "trip_duration_sec" = Option.none) :
    tripOfRow row = Option.none := by
  rcases Option.eq_none_or_eq_some (tripOfRow row) with hn | ⟨t, ht⟩
  · exact hn
  · rw [tripOfRow_eq_some_iff] at ht
    rcases h with h | h | h <;> rw [h] at ht <;> simp_all

/-- A missing required field makes `tripOfRow` skip the row. -/
theorem tripOfRow_eq_none_of_required (row : Row)
    (h : rowFind row "trip_id" = Option.none ∨
         rowFind row "service_type" = Option.none ∨
         rowFind row "pickup_datetime" = Option.none ∨
         rowFind row "dropoff_datetime" = Option.none) :
    tripOfRow row = Option.none := by
  rcases Option.eq_none_or_eq_some (tripOfRow row) with hn | ⟨t, ht⟩
  · exact hn
  · rw [tripOfRow_eq_some_iff] at ht
    rcases h with h | h | h | h <;> rw [h] at ht <;> simp_all

/-- With pairwise-distinct sort keys, at most one admissible ordering
exists: two sorted permutations of the same rows coincide. -/
theorem admissibleOrdering_unique_of_nodup (rows r1 r2 : List Row)
    (h1 : admissibleOrdering rows r1) (h2 : admissibleOrdering rows r2)
    (hnd : (rows.map tsOf).Nodup) : r1 = r2 := by
  obtain ⟨hp1, hc1⟩ := h1
  obtain ⟨hp2, hc2⟩ := h2
  haveI : IsTrans Row (fun a b => tsOf b ≤ tsOf a) :=
    ⟨fun _ _ _ hab hbc => le_trans hbc hab⟩
  haveI : IsAntisymm Row (fun a b => tsOf b < tsOf a) :=
    ⟨fun _ _ hab hba => absurd hab (not_lt_of_lt hba)⟩
  have hw1 : r1.Pairwise (fun a b => tsOf b ≤ tsOf a) := List.chain'_iff_pairwise.mp hc1
  have hw2 : r2.Pairwise (fun a b => tsOf b ≤ tsOf a) := List.chain'_iff_pairwise.mp hc2
  have hnd1 : (r1.map tsOf).Nodup := ((hp1.map tsOf).nodup_iff).mpr hnd
  have hnd2 : (r2.map tsOf).Nodup := ((hp2.map tsOf).nodup_iff).mpr hnd
  have hne1 : r1.Pairwise (fun a b => tsOf a ≠ tsOf b) := (List.pairwise_map).mp hnd1
  have hne2 : r2.Pairwise (fun a b => tsOf a ≠ tsOf b) := (List.pairwise_map).mp hnd2
  have hs1 : List.Sorted (fun a b => tsOf b < tsOf a) r1 :=
    (hw1.and hne1).imp (fun h => lt_of_le_of_ne h.1 (Ne.symm h.2))
  have hs2 : List.Sorted (fun a b => tsOf b < tsOf a) r2 :=
    (hw2.and hne2).imp (fun h => lt_of_le_of_ne h.1 (Ne.symm h.2))
  exact List.eq_of_perm_of_sorted (hp1.trans hp2.symm) hs1 hs2

/-! ## Claims -/

/-- C1, as stated, is false on the code: a numeric field whose raw value
is present and truthy but fails `float` conversion does not become the
zero value — the conversion raises and the row is dropped.
`rowBadDistance` (whose `trip_distance` is the truthy string `"abc"`) is
excluded by the row mapper on that account, while the same row without
the field is kept with `trip_distance = 0.0`. -/
theorem C1_counterexample :
    tripOfRow rowBadDistance = Option.none ∧
    (tripOfRow rowNoDistance).isSome = true ∧
    Option.map Trip.trip_distance (tripOfRow rowNoDistance) = some 0 := by
  refine ⟨?_, ?_, ?_⟩ <;> decide

/-- C1 (amended): a numeric field whose source value is missing, empty,
or zero-equivalent-falsy yields the type's zero value (0.0 for floats, 0
for integers) without any error; but a present, truthy value that fails
conversion to float/int raises, and the row mapper drops the whole row
on that account. -/
theorem C1_numeric_default_amended :
    (∀ row k, (rowGet row k PyVal.none).truthy = false →
       numFieldFloat row k = some 0 ∧ numFieldInt row k = some 0) ∧
    (∀ row t, tripOfRow row = some t →
       ((rowGet row "trip_distance" PyVal.none).truthy = false → t.trip_distance = 0) ∧
       ((rowGet row "total_amount" PyVal.none).truthy = false → t.total_amount = 0) ∧
       ((rowGet row "trip_duration_sec" PyVal.none).truthy = false → t.trip_duration_sec = 0)) ∧
    (∀ row, (rowGet row "trip_distance" PyVal.none).truthy = true →
       pyFloat (rowGet row "trip_distance" (PyVal.int 0)) = Option.none →
       tripOfRow row = Option.none) ∧
    (∀ row, (rowGet row "total_amount" PyVal.none).truthy = true →
       pyFloat (rowGet row "total_amount" (PyVal.int 0)) = Option.none →
       tripOfRow row = Option.none) ∧
    (∀ row, (rowGet row "trip_duration_sec" PyVal.none).truthy = true →
       pyInt (rowGet row "trip_duration_sec" (PyVal.int 0)) = Option.none →
       tripOfRow row = Option.none) := by
  refine ⟨?_, ?_, ?_, ?_, ?_⟩
  · exact fun row k h => ⟨numFieldFloat_of_falsy row k h, numFieldInt_of_falsy row k h⟩
  · intro row t ht
    rw [tripOfRow_eq_some_iff] at ht
    refine ⟨fun h => ?_, fun h => ?_, fun h => ?_⟩
    · have hd := ht.2.2.2.2.1
      rw [numFieldFloat_of_falsy row _ h] at hd
      exact (Option.some.inj hd).symm
    · have hd := ht.2.2.2.2.2.1
      rw [numFieldFloat_of_falsy row _ h] at hd
      exact (Option.some.inj hd).symm
    · have hd := ht.2.2.2.2.2.2.1
      rw [numFieldInt_of_falsy row _ h] at hd
      exact (Option.some.inj hd).symm
  · intro row h1 h2
    exact tripOfRow_eq_none_of_numField row
      (Or.inl ((numFieldFloat_eq_none_iff row _).mpr ⟨h1, h2⟩))
  · intro row h1 h2
    exact tripOfRow_eq_none_of_numField row
      (Or.inr (Or.inl ((numFieldFloat_eq_none_iff row _).mpr ⟨h1, h2⟩)))
  · intro row h1 h2
    exact tripOfRow_eq_none_of_numField row
      (Or.inr (Or.inr ((numFieldInt_eq_none_iff row _).mpr ⟨h1, h2⟩)))

/-- Witness for C1 (amended) at concrete rows. -/
theorem C1_numeric_default_amended_witness :
    numFieldFloat rowNoDistance "trip_distance" = some 0 ∧
    tripOfRow rowBadDistance = Option.none :=
  ⟨(C1_numeric_default_amended.1 rowNoDistance "trip_distance" (by decide)).1,
   C1_numeric_default_amended.2.2.1 rowBadDistance (by decide) (by decide)⟩

/-- C2: if anything inside the `try` block raises — the count query, the
page query, or any step between — the handler returns the well-formed
fallback response: empty data, `total_records = 0`, `total_pages = 0`,
and the request's `page`/`page_size` echoed; the exception never escapes
to the client. -/
theorem C2_failure_returns_empty_fallback (db : Db) (sd ed : DateV)
    (st : Option ServiceType) (b : Option String) (pg psz : Int) (e : String)
    (h : get_trips_try db sd ed st b pg psz = .error e) :
    get_trips db sd ed st b pg psz =
      { data := []
        pagination := {
          page := pg
          page_size := psz
          total_records := 0
          total_pages := 0 } } := by
  simp [get_trips, h]

/-- Witness for C2 against a database that always raises. -/
theorem C2_witness :
    get_trips_try errDb 0 1 Option.none Option.none 1 100 = .error "connection failed" ∧
    get_trips errDb 0 1 Option.none Option.none 1 100 =
      { data := []
        pagination := { page := 1, page_size := 100, total_records := 0, total_pages := 0 } } :=
  ⟨rfl, C2_failure_returns_empty_fallback errDb 0 1 Option.none Option.none 1 100
    "connection failed" rfl⟩

/-- C3: for nonnegative `total_records` and positive `page_size`,
`total_pages` is the ceiling of their exact quotient (equivalently the
rounded-up integer division); it is 0 when `page_size ≤ 0` and 0 whenever
`total_records = 0`. -/
theorem C3_total_pages_formula (tr ps : Int) :
    (0 ≤ tr → 0 < ps →
      totalPagesOf tr ps = ⌈(tr : Rat) / (ps : Rat)⌉ ∧
      totalPagesOf tr ps = (((tr.toNat + ps.toNat - 1) / ps.toNat : Nat) : Int)) ∧
    (ps ≤ 0 → totalPagesOf tr ps = 0) ∧
    (tr = 0 → totalPagesOf tr ps = 0) := by
  refine ⟨fun htr hps => ?_, fun hps => ?_, fun htr => ?_⟩
  · have h1 : totalPagesOf tr ps = ⌈(tr : Rat) / (ps : Rat)⌉ := by
      simp [totalPagesOf, hps]
    refine ⟨h1, ?_⟩
    obtain ⟨a, rfl⟩ := Int.eq_ofNat_of_zero_le htr
    obtain ⟨b, rfl⟩ := Int.eq_ofNat_of_zero_le (le_of_lt hps)
    have hb : 0 < b := by exact_mod_cast hps
    rw [h1]
    have : ((a : Int) : Rat) = (a : Rat) := by push_cast; rfl
    rw [this]
    have : ((b : Int) : Rat) = (b : Rat) := by push_cast; rfl
    rw [this, ceil_natCast_div a b hb]
    simp
  · simp [totalPagesOf, not_lt_of_le hps, hps]
  · subst htr
    by_cases h : 0 < ps <;> simp [totalPagesOf, h]

/-- Witness for C3 at concrete pagination inputs. -/
theorem C3_witness :
    totalPagesOf 5 2 = 3 ∧ totalPagesOf 5 0 = 0 ∧ totalPagesOf 0 (-3) = 0 := by
  refine ⟨?_, ?_, ?_⟩
  · have h := ((C3_total_pages_formula 5 2).1 (by decide) (by decide)).2
    rw [h]; decide
  · exact (C3_total_pages_formula 5 0).2.1 (by decide)
  · exact (C3_total_pages_formula 0 (-3)).2.2 rfl

/-- C4, as stated, is false on the code: the page query's only ordering
directive is `ORDER BY pickup_datetime DESC`, with no tie-break key.
With two rows sharing one timestamp, both interleavings are admissible
results of the query, and they have different first-page boundaries:
the ordering is not deterministic when the primary sort key is not
unique. -/
theorem C4_counterexample :
    admissibleOrdering [rowTieA, rowTieB] [rowTieA, rowTieB] ∧
    admissibleOrdering [rowTieA, rowTieB] [rowTieB, rowTieA] ∧
    List.take 1 [rowTieA, rowTieB] ≠ List.take 1 [rowTieB, rowTieA] := by
  refine ⟨⟨List.Perm.refl _, ?_⟩, ⟨List.Perm.swap _ _ _, ?_⟩, ?_⟩
  · exact List.chain'_cons.mpr ⟨by decide, List.chain'_singleton _⟩
  · exact List.chain'_cons.mpr ⟨by decide, List.chain'_singleton _⟩
  · decide

/-- C4 (amended): the page query orders rows newest-first by
`pickup_datetime` only; no tie-break is applied.  Every admissible result
is a permutation of the matching rows with non-increasing timestamps, and
the ordering — hence every page boundary — is deterministic exactly when
the timestamps are pairwise distinct. -/
theorem C4_ordering_amended :
    (∀ rows result, admissibleOrdering rows result →
       result.Perm rows ∧ result.Chain' (fun a b => tsOf b ≤ tsOf a)) ∧
    (∀ rows r1 r2, admissibleOrdering rows r1 → admissibleOrdering rows r2 →
       (rows.map tsOf).Nodup → r1 = r2) :=
  ⟨fun _ _ h => h, admissibleOrdering_unique_of_nodup⟩

/-- Witness for C4 (amended) at rows with distinct timestamps. -/
theorem C4_ordering_amended_witness :
    ([rowSeqA, rowSeqB] : List Row) = [rowSeqA, rowSeqB] ∧
    List.Perm [rowSeqA, rowSeqB] [rowSeqA, rowSeqB] := by
  have hchain : List.Chain' (fun a b => tsOf b ≤ tsOf a) [rowSeqA, rowSeqB] :=
    List.chain'_cons.mpr ⟨by decide, List.chain'_singleton _⟩
  constructor
  · exact C4_ordering_amended.2 [rowSeqA, rowSeqB] [rowSeqA, rowSeqB] [rowSeqA, rowSeqB]
      ⟨List.Perm.refl _, hchain⟩ ⟨List.Perm.refl _, hchain⟩ (by decide)
  · exact (C4_ordering_amended.1 [rowSeqA, rowSeqB] [rowSeqA, rowSeqB]
      ⟨List.Perm.refl _, hchain⟩).1

/-- C5: a row whose required identifying fields (trip id, service type,
either timestamp) are missing is dropped silently; mapping continues with
the surrounding rows; every record in the data list arises from a
successfully converted row (no partial record); and the pagination's
`total_records` comes from the independent count result, unaffected by
which page rows convert. -/
theorem C5_required_field_rows_dropped :
    (∀ row, (rowFind row "trip_id" = Option.none ∨
             rowFind row "service_type" = Option.none ∨
             rowFind row "pickup_datetime" = Option.none ∨
             rowFind row "dropoff_datetime" = Option.none) →
       tripOfRow row = Option.none) ∧
    (∀ (l1 l2 : List Row) (bad : Row), tripOfRow bad = Option.none →
       (l1 ++ bad :: l2).filterMap tripOfRow = (l1 ++ l2).filterMap tripOfRow) ∧
    (∀ (rows : List Row) (t : Trip),
       t ∈ rows.filterMap tripOfRow ↔ ∃ row ∈ rows, tripOfRow row = some t) ∧
    (∀ (r : Option Int) (rows : List Row) (sd ed : DateV) (st : Option ServiceType)
       (b : Option String) (pg psz : Int),
       (get_trips (constDb r rows) sd ed st b pg psz).pagination.total_records =
         totalRecordsOf r) := by
  refine ⟨tripOfRow_eq_none_of_required, ?_, ?_, ?_⟩
  · intro l1 l2 bad h
    simp [List.filterMap_append, List.filterMap_cons, h]
  · intro rows t
    simp [List.mem_filterMap]
  · intro r rows sd ed st b pg psz
    rw [get_trips_constDb]

/-- Witness for C5 at concrete rows (a row lacking `trip_id` is dropped,
the surrounding rows survive, and the count is untouched). -/
theorem C5_witness :
    tripOfRow rowTieA = Option.none ∧
    ([rowNoDistance] ++ rowTieA :: []).filterMap tripOfRow =
      ([rowNoDistance] ++ []).filterMap tripOfRow ∧
    (get_trips (constDb (some 7) [rowTieA]) 0 1 Option.none Option.none 1 100).pagination.total_records =
      totalRecordsOf (some 7) := by
  refine ⟨?_, ?_, ?_⟩
  · exact C5_required_field_rows_dropped.1 rowTieA (Or.inl (by decide))
  · exact C5_required_field_rows_dropped.2.1 [rowNoDistance] [] rowTieA (by decide)
  · exact C5_required_field_rows_dropped.2.2.2 (some 7) [rowTieA] 0 1
      Option.none Option.none 1 100

/-- An inactive date-range filter contributes nothing. -/
theorem dateParts_nil (sd ed : Option DateV) (h : dateActive sd ed = false) :
    datePartsW sd ed = [] ∧ datePartsP sd ed = [] := by
  cases sd <;> cases ed <;> simp_all [dateActive, datePartsW, datePartsP]

/-- An inactive service-type filter contributes nothing. -/
theorem stParts_nil (st : Option ServiceType) (h : stActive st = false) :
    stPartsW st = [] ∧ stPartsP st = [] := by
  cases st <;> simp_all [stActive, stPartsW, stPartsP]

/-- An inactive borough filter contributes nothing. -/
theorem boroughParts_nil (b : Option String) (h : boroughActive b = false) :
    boroughPartsW b = [] ∧ boroughPartsP b = [] := by
  cases b <;> simp_all [boroughActive, boroughPartsW, boroughPartsP]

/-- The date-range clause fragments depend only on whether the filter is
active, never on the date values. -/
theorem datePartsW_pattern (sd1 ed1 sd2 ed2 : Option DateV)
    (h : dateActive sd1 ed1 = dateActive sd2 ed2) :
    datePartsW sd1 ed1 = datePartsW sd2 ed2 := by
  cases sd1 <;> cases ed1 <;> cases sd2 <;> cases ed2 <;>
    simp_all [dateActive, datePartsW]

/-- The service-type clause fragment depends only on whether the filter
is active, never on the enum value. -/
theorem stPartsW_pattern (st1 st2 : Option ServiceType)
    (h : stActive st1 = stActive st2) :
    stPartsW st1 = stPartsW st2 := by
  cases st1 <;> cases st2 <;> simp_all [stActive, stPartsW]

/-- The borough clause fragment depends only on whether the filter is
active, never on the borough string. -/
theorem boroughPartsW_pattern (b1 b2 : Option String)
    (h : boroughActive b1 = boroughActive b2) :
    boroughPartsW b1 = boroughPartsW b2 := by
  unfold boroughPartsW
  rw [h]

/-- C6: the predicate builder yields, for each filter in order, its fixed
clause fragments and its bound parameters; an active `service_type` or
`borough` contributes exactly one equality predicate and one parameter;
with no active filter the clause is the tautology `"1=1"` with no
parameters; active fragments are AND-joined; and the number of `?`
placeholders in the final clause always equals the length of the
parameter list (fragments and parameters are emitted in the same
left-to-right order). -/
theorem C6_predicate_builder_shape (sd ed : Option DateV)
    (st : Option ServiceType) (b : Option String) :
    buildWhere sd ed st b =
      (datePartsW sd ed ++ stPartsW st ++ boroughPartsW b,
       datePartsP sd ed ++ stPartsP st ++ boroughPartsP b) ∧
    (∀ v, stPartsW (some v) = ["service_type = ?"] ∧
          stPartsP (some v) = [Param.str v.value]) ∧
    (∀ s : String, s.isEmpty = false →
       boroughPartsW (some s) = ["pickup_borough = ?"] ∧
       boroughPartsP (some s) = [Param.str s]) ∧
    (dateActive sd ed = false → stActive st = false → boroughActive b = false →
       whereClauseOf (buildWhere sd ed st b).1 = "1=1" ∧ (buildWhere sd ed st b).2 = []) ∧
    (∀ wp : List String, wp ≠ [] → whereClauseOf wp = String.intercalate " AND " wp) ∧
    countPlaceholders (whereClauseOf (buildWhere sd ed st b).1) =
      (buildWhere sd ed st b).2.length := by
  refine ⟨buildWhere_decomp sd ed st b, fun v => ⟨rfl, rfl⟩, ?_, ?_, ?_, ?_⟩
  · intro s hs
    constructor
    · simp [boroughPartsW, boroughActive, hs]
    · simp [boroughPartsP, hs]
  · intro h1 h2 h3
    rw [buildWhere_decomp sd ed st b]
    rw [(dateParts_nil sd ed h1).1, (dateParts_nil sd ed h1).2,
        (stParts_nil st h2).1, (stParts_nil st h2).2,
        (boroughParts_nil b h3).1, (boroughParts_nil b h3).2]
    exact ⟨rfl, rfl⟩
  · intro wp h
    simp [whereClauseOf, h]
  · rw [buildWhere_decomp sd ed st b]
    have hb : (boroughPartsW b = [] ∧ boroughPartsP b = []) ∨
        ∃ s, boroughPartsW b = ["pickup_borough = ?"] ∧
          boroughPartsP b = [Param.str s] := by
      cases b with
      | none => exact Or.inl ⟨rfl, rfl⟩
      | some s =>
        by_cases hs : s.isEmpty
        · exact Or.inl ⟨by simp [boroughPartsW, boroughActive, hs],
            by simp [boroughPartsP, hs]⟩
        · exact Or.inr ⟨s, by simp [boroughPartsW, boroughActive, hs],
            by simp [boroughPartsP, hs]⟩
    cases sd <;> cases ed <;> cases st <;>
      rcases hb with ⟨hw, hp⟩ | ⟨s, hw, hp⟩ <;>
      rw [hw, hp] <;>
      simp only [datePartsW, datePartsP, stPartsW, stPartsP,
        List.nil_append, List.append_nil, List.length_append,
        List.length_cons, List.length_nil] <;>
      decide

/-- Witness for C6 at concrete filter inputs: all filters inactive gives
the tautology clause with no parameters; all filters active gives a
clause whose placeholder count matches the parameter count. -/
theorem C6_witness :
    whereClauseOf (buildWhere Option.none Option.none Option.none (some "")).1 = "1=1" ∧
    (buildWhere Option.none Option.none Option.none (some "")).2 = [] ∧
    countPlaceholders
        (whereClauseOf (buildWhere (some 1) (some 2) (some ServiceType.yellow) (some "Queens")).1) =
      (buildWhere (some 1) (some 2) (some ServiceType.yellow) (some "Queens")).2.length ∧
    whereClauseOf ["service_type = ?"] = String.intercalate " AND " ["service_type = ?"] := by
  have h0 := C6_predicate_builder_shape Option.none Option.none Option.none (some "")
  have h1 := C6_predicate_builder_shape (some 1) (some 2) (some ServiceType.yellow) (some "Queens")
  refine ⟨(h0.2.2.2.1 rfl rfl (by decide)).1, (h0.2.2.2.1 rfl rfl (by decide)).2,
    h1.2.2.2.2.2, h0.2.2.2.2.1 ["service_type = ?"] (by decide)⟩

/-- C7: the predicate builder treats a single supplied date (without its
partner) exactly as if neither date were supplied — the produced
WHERE-parts and parameter list, and hence the final clause and both
queries, are identical. -/
theorem C7_single_date_ignored (s e : DateV) (st : Option ServiceType)
    (b : Option String) :
    buildWhere (some s) Option.none st b = buildWhere Option.none Option.none st b ∧
    buildWhere Option.none (some e) st b = buildWhere Option.none Option.none st b ∧
    whereClauseOf (buildWhere (some s) Option.none st b).1 =
      whereClauseOf (buildWhere Option.none Option.none st b).1 ∧
    whereClauseOf (buildWhere Option.none (some e) st b).1 =
      whereClauseOf (buildWhere Option.none Option.none st b).1 :=
  ⟨rfl, rfl, rfl, rfl⟩

/-- C8: the count step turns a null scalar result into `total_records = 0`
without raising; a successful scalar call never makes the count layer
itself fail, and the pagination metadata is computed from exactly this
value. -/
theorem C8_count_null_yields_zero :
    totalRecordsOf Option.none = 0 ∧
    (∀ (rows : List Row) (sd ed : DateV) (st : Option ServiceType)
       (b : Option String) (pg psz : Int),
       get_trips_try (constDb Option.none rows) sd ed st b pg psz =
         .ok { data := rows.filterMap tripOfRow
               pagination := {
                 page := pg
                 page_size := psz
                 total_records := 0
                 total_pages := totalPagesOf 0 psz } }) ∧
    (∀ (r : Option Int) (rows : List Row) (sd ed : DateV) (st : Option ServiceType)
       (b : Option String) (pg psz : Int),
       (get_trips (constDb r rows) sd ed st b pg psz).pagination.total_records =
         totalRecordsOf r) :=
  ⟨rfl, fun _ _ _ _ _ _ _ => rfl, fun _ _ _ _ _ _ _ _ => rfl⟩

/-- C9, as stated, is false on the code: the clause depends on the
*presence* pattern only up to Python truthiness.  Two requests that both
supply the `borough` parameter — the same choice of which filters are
supplied — but with the values `""` and `"Queens"` produce different
WHERE clauses, because `if borough:` (source line 55) skips the falsy
empty string. -/
theorem C9_counterexample :
    ((some "" : Option String)).isSome = ((some "Queens" : Option String)).isSome ∧
    whereClauseOf (buildWhere (some 1) (some 2) Option.none (some "")).1 ≠
      whereClauseOf (buildWhere (some 1) (some 2) Option.none (some "Queens")).1 := by
  refine ⟨rfl, ?_⟩
  decide

/-- C9 (amended): two requests whose filters have the same truthiness
pattern — the same choice of which of the date-range, service-type and
borough filters is active, where a supplied-but-empty borough string
counts as inactive — produce character-for-character identical WHERE
clauses, whatever the filter values; values reach only the bound
parameter list. -/
theorem C9_clause_independent_of_values (sd1 ed1 sd2 ed2 : Option DateV)
    (st1 st2 : Option ServiceType) (b1 b2 : Option String)
    (hd : dateActive sd1 ed1 = dateActive sd2 ed2)
    (hs : stActive st1 = stActive st2)
    (hb : boroughActive b1 = boroughActive b2) :
    whereClauseOf (buildWhere sd1 ed1 st1 b1).1 =
      whereClauseOf (buildWhere sd2 ed2 st2 b2).1 := by
  rw [buildWhere_decomp sd1 ed1 st1 b1, buildWhere_decomp sd2 ed2 st2 b2]
  rw [show (datePartsW sd1 ed1 ++ stPartsW st1 ++ boroughPartsW b1,
        datePartsP sd1 ed1 ++ stPartsP st1 ++ boroughPartsP b1).1 =
      datePartsW sd1 ed1 ++ stPartsW st1 ++ boroughPartsW b1 from rfl]
  rw [show (datePartsW sd2 ed2 ++ stPartsW st2 ++ boroughPartsW b2,
        datePartsP sd2 ed2 ++ stPartsP st2 ++ boroughPartsP b2).1 =
      datePartsW sd2 ed2 ++ stPartsW st2 ++ boroughPartsW b2 from rfl]
  rw [datePartsW_pattern sd1 ed1 sd2 ed2 hd, stPartsW_pattern st1 st2 hs,
    boroughPartsW_pattern b1 b2 hb]

/-- Witness for C9 (amended): same activity pattern, different dates,
service type and borough values — identical clause. -/
theorem C9_witness :
    whereClauseOf (buildWhere (some 1) (some 2) (some ServiceType.yellow) (some "Queens")).1 =
      whereClauseOf (buildWhere (some 9) (some 30) (some ServiceType.green) (some "Bronx")).1 :=
  C9_clause_independent_of_values (some 1) (some 2) (some 9) (some 30)
    (some ServiceType.yellow) (some ServiceType.green) (some "Queens") (some "Bronx")
    rfl rfl (by decide)

/-- C10: the endpoint requires both dates, and a `datetime.date` is never
falsy, so the clause the handler builds always starts with the two
date-range predicates; the `"1=1"` tautology branch (and with it the
single-date case) is unreachable from the endpoint's public interface. -/
theorem C10_date_predicates_always_present (sd ed : DateV)
    (st : Option ServiceType) (b : Option String) :
    (buildWhere (some sd) (some ed) st b).1 =
      "CAST(pickup_date AS DATE) >= ?" :: "CAST(pickup_date AS DATE) <= ?" ::
        (stPartsW st ++ boroughPartsW b) ∧
    whereClauseOf (buildWhere (some sd) (some ed) st b).1 ≠ "1=1" := by
  have hd := buildWhere_decomp (some sd) (some ed) st b
  constructor
  · rw [hd]
    simp [datePartsW]
  · rw [hd]
    have hb : boroughPartsW b = [] ∨ boroughPartsW b = ["pickup_borough = ?"] := by
      cases b with
      | none => exact Or.inl rfl
      | some s =>
        by_cases hs : s.isEmpty
        · exact Or.inl (by simp [boroughPartsW, boroughActive, hs])
        · exact Or.inr (by simp [boroughPartsW, boroughActive, hs])
    cases st <;> rcases hb with hb | hb <;> rw [hb] <;>
      simp only [datePartsW, stPartsW, List.nil_append, List.append_nil] <;> decide

/-- Witness for C10 at a concrete endpoint input. -/
theorem C10_witness :
    whereClauseOf (buildWhere (some 0) (some 1) Option.none Option.none).1 ≠ "1=1" :=
  (C10_date_predicates_always_present 0 1 Option.none Option.none).2
